import Mathlib

/-!
Verification of the twistchat chatroom server (src/twistchat/server.py).

The server is embedded shallowly: Python dicts become association lists,
object identity becomes a numeric session id, the Twisted transport is an
external collaborator delivering discrete events (connect, line, lost), and
each handler method becomes a Lean function from a `World` (the whole
process state plus the log of lines sent out) to a `World`.  An unhandled
Python exception (e.g. a KeyError escaping a handler) is modelled by the
`crashed` flag.
-/

set_option maxHeartbeats 1000000

/-- Association-list lookup, mirroring Python dict indexing. -/
def dlookup [DecidableEq κ] (k : κ) : List (κ × α) → Option α
  | [] => none
  | (k1, v) :: rest => if k1 = k then some v else dlookup k rest

/-- Association-list assignment `d[k] = v`: replace in place, else append. -/
def dinsert [DecidableEq κ] (k : κ) (v : α) : List (κ × α) → List (κ × α)
  | [] => [(k, v)]
  | (k1, v1) :: rest => if k1 = k then (k, v) :: rest else (k1, v1) :: dinsert k v rest

/-- Association-list deletion `del d[k]` (first occurrence; keys are unique). -/
def derase [DecidableEq κ] (k : κ) : List (κ × α) → List (κ × α)
  | [] => []
  | (k1, v1) :: rest => if k1 = k then rest else (k1, v1) :: derase k rest

/-- In-place update of the value stored under key `k`, if present. -/
def updAt [DecidableEq κ] (k : κ) (f : α → α) : List (κ × α) → List (κ × α)
  | [] => []
  | (k1, v1) :: rest => if k1 = k then (k1, f v1) :: rest else (k1, v1) :: updAt k f rest

/-- The whitespace characters stripped by Python `str.strip()` (ASCII part). -/
def isPySpace (c : Char) : Bool :=
  c = ' ' || c = '\t' || c = '\n' || c = '\r' || c = '\x0b' || c = '\x0c'

/-- Python `str.strip()`: drop leading and trailing whitespace. -/
def pyStrip (s : String) : String :=
  ⟨((s.data.dropWhile isPySpace).reverse.dropWhile isPySpace).reverse⟩

/-- Python `str.split()` with no argument: split on whitespace runs, no empties. -/
def pySplit (s : String) : List String :=
  (s.split isPySpace).filter (fun t => !t.isEmpty)

/-- Python `' '.join(l)`. -/
def joinSpace (l : List String) : String := String.intercalate " " l

/-- The states a `UserSession` can be in (class `states` in the source). -/
inductive SessState where
  | REGISTERED
  | REQUESTING_NAME
  | REQUESTING_LOGIN_PASSWORD
  | REQUESTING_NEW_PASSWORD
  | CHANGING_USERNAME
  | CHOOSING_KICK_OTHER_SESS
  | REQUESTING_CURRENT_PASSWORD
  | REQUESTING_NEW_ACC_PASSWORD
  | REQUESTING_MESSAGE_TEXT
  deriving DecidableEq, Repr

/-- A credential record: the value of `factory.users[name]`. -/
structure UserData where
  pword : String
  is_op : Bool
  deriving DecidableEq, Repr

/-- One `UserSession` object.  `closing` records that
`transport.loseConnection()` has been called; the transport will deliver the
`connectionLost` event later (Twisted closes asynchronously). -/
structure Session where
  host : String
  port : Nat
  muted : Bool
  reason_for_quit : Option String
  name : String
  is_op : Bool
  state : SessState
  requested_uname : Option String
  msg_recipient : Option String
  closing : Bool
  deriving DecidableEq, Repr

/-- A fresh session as built by `UserSession.__init__`. -/
def mkSession (host : String) (port : Nat) : Session :=
  { host := host, port := port, muted := false, reason_for_quit := none,
    name := "Anonymous", is_op := false, state := SessState.REQUESTING_NAME,
    requested_uname := none, msg_recipient := none, closing := false }

/-- The mutable fields of `UserSessionFactory`. -/
structure Factory where
  online_users : List (String × Nat)
  connections : List Nat
  users : List (String × UserData)
  deriving DecidableEq, Repr

/-- The serialized form of the credential mapping (what `pickle.dump` writes). -/
def pickleEncode (users : List (String × UserData)) : List (String × String × Bool) :=
  users.map (fun p => (p.1, p.2.pword, p.2.is_op))

/-- Deserialization (what `pickle.load` reads back). -/
def pickleDecode (blob : List (String × String × Bool)) : List (String × UserData) :=
  blob.map (fun t => (t.1, { pword := t.2.1, is_op := t.2.2 }))

/-- `save_users`: overwrite the users file with the pickled mapping. -/
def save_users (users : List (String × UserData)) : Option (List (String × String × Bool)) :=
  some (pickleEncode users)

/-- `load_users`: unpickle the users file, or bootstrap a default admin
account when the file does not exist. -/
def load_users (file : Option (List (String × String × Bool)))
    (defaultAdminPass : String) : List (String × UserData) :=
  match file with
  | some blob => pickleDecode blob
  | none => [("admin", { pword := defaultAdminPass, is_op := true })]

/-- The whole process state: factory, every session object, the log of lines
sent to clients (`outbox`), the persisted users file, the configured list of
operator-only commands, and whether an unhandled exception occurred. -/
structure World where
  factory : Factory
  sessions : List (Nat × Session)
  outbox : List (Nat × String)
  fileStore : Option (List (String × String × Bool))
  op_cmds : List String
  crashed : Bool
  deriving DecidableEq, Repr

/-- Resolve a session id to its session object. -/
def getSession (w : World) (sid : Nat) : Option Session :=
  dlookup sid w.sessions

/-- Mutate the fields of the session object `sid`. -/
def updSession (w : World) (sid : Nat) (f : Session → Session) : World :=
  { w with sessions := updAt sid f w.sessions }

/-- `UserSession.sendLine`: append one outbound line for connection `sid`. -/
def send (w : World) (sid : Nat) (line : String) : World :=
  { w with outbox := w.outbox ++ [(sid, line)] }

/-- Does session `c` exist and have `state == states.REGISTERED`? -/
def isRegisteredIn (w : World) (c : Nat) : Bool :=
  match getSession w c with
  | some s => decide (s.state = SessState.REGISTERED)
  | none => false

/-- The loop condition of `broadcast_message`: `conn is not exception and
conn.state == states.REGISTERED`. -/
def bcastCond (w : World) (exc : Option Nat) (c : Nat) : Bool :=
  decide (some c ≠ exc) && isRegisteredIn w c

/-- `UserSessionFactory.broadcast_message`: send `message` to every connected
user except `exc`. -/
def broadcast_message (w : World) (message : String) (exc : Option Nat) : World :=
  w.factory.connections.foldl
    (fun acc c => if bcastCond w exc c then send acc c message else acc) w

/-- `UserSession.longname`: format the username and host address. -/
def longname (s : Session) : String :=
  s.name ++ "(" ++ s.host ++ ":" ++ toString s.port ++ ")"

/-- `requires_op`: is the command in the configured `OP_CMDS` list? -/
def requires_op (w : World) (cmd : String) : Bool :=
  w.op_cmds.contains cmd

/-- `UserSessionFactory.kick`: mute the connection and close its transport.
The source also builds the string `"! <name> was kicked[ by <actor>]"` into a
local `msg`, but never sends or broadcasts it — that assignment is dead code,
so the kick notice never leaves the server. -/
def kick (w : World) (sid : Nat) : World :=
  let w1 := updSession w sid (fun t => { t with muted := true })
  updSession w1 sid (fun t => { t with closing := true })

/-- `UserSessionFactory.kick_by_name`: resolve the name in `online_users`;
on a miss notify `kicked_by` (when given), otherwise kick the connection. -/
def kick_by_name (w : World) (username : String) (kicked_by : Option Nat) : World :=
  match dlookup username w.factory.online_users with
  | none =>
    match kicked_by with
    | some r => send w r "! That user isn\x27t online right now."
    | none => w
  | some conn => kick w conn

/-- `UserSessionFactory.remove_connection`: `connections.remove(conn)` raises
KeyError when the connection is absent (modelled by `crashed`); the deletion
from `online_users` is keyed on `conn.name` and is wrapped in try/except. -/
def remove_connection (w : World) (sid : Nat) : World :=
  if sid ∈ w.factory.connections then
    match getSession w sid with
    | none => { w with crashed := true }
    | some s =>
      { w with factory := { w.factory with
          connections := w.factory.connections.erase sid,
          online_users := derase s.name w.factory.online_users } }
  else { w with crashed := true }

/-- `UserSessionFactory.message`: private delivery with try/except/else/finally;
the `finally` clause always resets the sender to REGISTERED. -/
def message (w : World) (sender : Nat) (recip_name : String) (text : String) : World :=
  match getSession w sender with
  | none => { w with crashed := true }
  | some ss =>
    let w2 :=
      match dlookup recip_name w.factory.online_users with
      | none => send w sender "! That user isn\x27t online right now"
      | some rid =>
        send (send w rid ("<msg: " ++ ss.name ++ "> " ++ text)) sender "! Message sent"
    updSession w2 sender (fun t => { t with state := SessState.REGISTERED })

/-- `UserSessionFactory.op`: grant operator status to an online user. -/
def op_user (w : World) (username : String) (requester : Nat) : World :=
  match dlookup username w.factory.online_users with
  | none => send w requester "! That user isn\x27t online right now."
  | some uid =>
    let w1 := broadcast_message w ("! " ++ username ++ " is now OP.") (some uid)
    let w2 := send w1 uid "! You are now OP."
    let w3 := updSession w2 uid (fun t => { t with is_op := true })
    match dlookup username w3.factory.users with
    | none => { w3 with crashed := true }
    | some ud =>
      let w4 := { w3 with factory := { w3.factory with
        users := dinsert username { ud with is_op := true } w3.factory.users } }
      { w4 with fileStore := save_users w4.factory.users }

/-- `UserSessionFactory.deop`: revoke operator status from an online user. -/
def deop_user (w : World) (username : String) (requester : Nat) : World :=
  match dlookup username w.factory.online_users with
  | none => send w requester "! The user isn\x27t online right now."
  | some uid =>
    let w1 := broadcast_message w ("! " ++ username ++ " is no longer OP.") (some uid)
    let w2 := send w1 uid "! You are no longer OP."
    match dlookup username w2.factory.users with
    | none => { w2 with crashed := true }
    | some ud =>
      let w3 := { w2 with factory := { w2.factory with
        users := dinsert username { ud with is_op := false } w2.factory.users } }
      let w4 := updSession w3 uid (fun t => { t with is_op := false })
      { w4 with fileStore := save_users w4.factory.users }

/-- `UserSession.welcome`: greet the user, show the online count, and (when
not muted) announce the join to the other registered users. -/
def welcome (w : World) (sid : Nat) : World :=
  match getSession w sid with
  | none => { w with crashed := true }
  | some s =>
    let w1 := send w sid ("Welcome " ++ s.name ++ "!")
    let w2 := send w1 sid (toString w1.factory.online_users.length ++ " people online currently.")
    if s.muted then w2
    else broadcast_message w2 (longname s ++ " joined the chatroom.") (some sid)

/-- The regex `^[A-Za-z0-9_]+$` used to validate usernames (`fullmatch`):
the string is nonempty and every character is an ASCII letter, a digit, or
an underscore. -/
def validUsername (uname : String) : Bool :=
  !uname.data.isEmpty && uname.data.all (fun c => c.isAlphanum || c = '_')

/-- `UserSession.got_username`: validate the candidate name, then branch on
duplicate session / existing account / new account.  Note the invalid-name
error line is the concatenation of two adjacent string literals, with no
space between the sentences. -/
def got_username (w : World) (sid : Nat) (uname : String) : World :=
  if validUsername uname = false then
    send w sid "Please enter a valid username.(Type below and press Return)"
  else
    let w0 := updSession w sid (fun t => { t with requested_uname := some uname })
    if (dlookup uname w0.factory.online_users).isSome then
      let w1 := send w0 sid "This account is being accessed somewhere else."
      let w2 := send w1 sid "Kick the other account? [Y/N]"
      updSession w2 sid (fun t => { t with state := SessState.CHOOSING_KICK_OTHER_SESS })
    else if (dlookup uname w0.factory.users).isSome then
      let w1 := send w0 sid "Password:"
      updSession w1 sid (fun t => { t with state := SessState.REQUESTING_LOGIN_PASSWORD })
    else
      let w1 := send w0 sid "Enter password for new account:"
      updSession w1 sid (fun t => { t with state := SessState.REQUESTING_NEW_ACC_PASSWORD })

/-- `UserSession.got_login_password`: on a match, kick any session holding the
requested name, adopt the identity, register in `online_users`, and welcome. -/
def got_login_password (w : World) (sid : Nat) (pword : String) : World :=
  match getSession w sid with
  | none => { w with crashed := true }
  | some s =>
    match s.requested_uname with
    | none => { w with crashed := true }
    | some req =>
      match dlookup req w.factory.users with
      | none => { w with crashed := true }
      | some ud =>
        if ud.pword = pword then
          let w1 := updSession w sid (fun t => { t with is_op := ud.is_op })
          let w2 := kick_by_name w1 req none
          let w3 := updSession w2 sid
            (fun t => { t with name := req, state := SessState.REGISTERED })
          let w4 := { w3 with factory := { w3.factory with
            online_users := dinsert req sid w3.factory.online_users } }
          welcome w4 sid
        else send w sid "Password incorrect. Enter password:"

/-- `UserSession.got_new_password`: replace the stored secret and persist. -/
def got_new_password (w : World) (sid : Nat) (pword : String) : World :=
  match getSession w sid with
  | none => { w with crashed := true }
  | some s =>
    match dlookup s.name w.factory.users with
    | none => { w with crashed := true }
    | some ud =>
      let w1 := { w with factory := { w.factory with
        users := dinsert s.name { ud with pword := pword } w.factory.users } }
      let w2 := updSession w1 sid (fun t => { t with state := SessState.REGISTERED })
      let w3 := send w2 sid "! Password changed"
      { w3 with fileStore := save_users w3.factory.users }

/-- `UserSession.got_new_acc_password`: create the account with whatever
(already stripped) line was received, register the session, and persist. -/
def got_new_acc_password (w : World) (sid : Nat) (pword : String) : World :=
  match getSession w sid with
  | none => { w with crashed := true }
  | some s =>
    match s.requested_uname with
    | none => { w with crashed := true }
    | some req =>
      let w1 := updSession w sid (fun t => { t with name := req })
      let w2 := { w1 with factory := { w1.factory with
        users := dinsert req { pword := pword, is_op := false } w1.factory.users } }
      let w3 := { w2 with factory := { w2.factory with
        online_users := dinsert req sid w2.factory.online_users } }
      let w4 := updSession w3 sid (fun t => { t with state := SessState.REGISTERED })
      let w5 := send w4 sid "Account created successfully."
      let w6 := welcome w5 sid
      { w6 with fileStore := save_users w6.factory.users }

/-- `UserSession.got_current_password`: gate on the stored secret before
allowing a password change. -/
def got_current_password (w : World) (sid : Nat) (pword : String) : World :=
  match getSession w sid with
  | none => { w with crashed := true }
  | some s =>
    match dlookup s.name w.factory.users with
    | none => { w with crashed := true }
    | some ud =>
      if pword = ud.pword then
        let w1 := send w sid "Enter new password:"
        updSession w1 sid (fun t => { t with state := SessState.REQUESTING_NEW_PASSWORD })
      else
        send (send w sid "Incorrect password") sid "Enter password:"

/-- `UserSession.got_kick_choice`: interpret the duplicate-session answer. -/
def got_kick_choice (w : World) (sid : Nat) (yesno : String) : World :=
  if yesno = "y" ∨ yesno = "Y" then
    let w1 := send w sid "Enter password:"
    updSession w1 sid (fun t => { t with state := SessState.REQUESTING_LOGIN_PASSWORD })
  else if yesno = "n" ∨ yesno = "N" then
    let w1 := send w sid "Enter name:"
    updSession w1 sid (fun t => { t with state := SessState.REQUESTING_NAME })
  else
    send w sid "Enter Y or N: kick the other session using this account?"

/-- `UserSession.got_message_text`: deliver the pending private message. -/
def got_message_text (w : World) (sid : Nat) (text : String) : World :=
  match getSession w sid with
  | none => { w with crashed := true }
  | some s =>
    match s.msg_recipient with
    | none => { w with crashed := true }
    | some recip => message w sid recip text

/-- `UserSession.msg_format`: `"[<name>] <stripped text>"`. -/
def msg_format (s : Session) (line : String) : String :=
  "[" ++ s.name ++ "] " ++ pyStrip line

/-- `UserSession.handle_command`: the `/`-command dispatcher. -/
def handle_command (w : World) (sid : Nat) (text : String) : World :=
  match getSession w sid with
  | none => { w with crashed := true }
  | some s =>
    match pySplit text with
    | [] => { w with crashed := true }
    | cmd :: params =>
      if requires_op w cmd && !s.is_op then
        send w sid "You are not OP."
      else if cmd = "/quit" ∨ cmd = "/leave" then
        let w1 := updSession w sid (fun t => { t with reason_for_quit := some (joinSpace params) })
        updSession w1 sid (fun t => { t with closing := true })
      else if cmd = "/nick" ∨ cmd = "/user" ∨ cmd = "/username" then
        if params.isEmpty then send w sid ("Usage: " ++ cmd ++ " <new nick>")
        else
          match dlookup s.name w.factory.online_users with
          | none => { w with crashed := true }
          | some _ =>
            let w1 := { w with factory := { w.factory with
              online_users := derase s.name w.factory.online_users } }
            got_username w1 sid (String.intercalate "_" params)
      else if cmd = "/me" then
        if params.isEmpty then send w sid "! usage: /me <action>"
        else if s.muted then w
        else broadcast_message w ("* " ++ s.name ++ " " ++ joinSpace params) none
      else if cmd = "/kick" then
        let w1 := if params.isEmpty then send w sid "! usage: /kick <username> ..." else w
        params.foldl (fun acc u => kick_by_name acc u (some sid)) w1
      else if cmd = "/op" then
        let w1 := if params.isEmpty then send w sid "! usage: /op <username> ..." else w
        params.foldl (fun acc u => op_user acc u sid) w1
      else if cmd = "/deop" then
        let w1 := if params.isEmpty then send w sid "! usage: /deop <username> ..." else w
        params.foldl (fun acc u => deop_user acc u sid) w1
      else if cmd = "/changepass" then
        let w1 := send w sid "Current password: "
        updSession w1 sid (fun t => { t with state := SessState.REQUESTING_CURRENT_PASSWORD })
      else if cmd = "/message" ∨ cmd = "/msg" then
        match params with
        | [] => send w sid "! usage: /message <user> [text ...]"
        | [recipient] =>
          let w1 := updSession w sid (fun t => { t with msg_recipient := some recipient })
          let w2 := send w1 sid "Message text:"
          updSession w2 sid (fun t => { t with state := SessState.REQUESTING_MESSAGE_TEXT })
        | recipient :: rest => message w sid recipient (joinSpace rest)
      else w

/-- `UserSession.command_or_msg`: a line starting with `/` is a command,
anything else is chat text broadcast to the others unless muted. -/
def command_or_msg (w : World) (sid : Nat) (line : String) : World :=
  match getSession w sid with
  | none => { w with crashed := true }
  | some s =>
    if line.startsWith "/" then handle_command w sid line
    else if s.muted then w
    else broadcast_message w (msg_format s line) (some sid)

/-- The disconnect notice, with the optional quoted quit reason (Python
truthiness: an empty reason string adds no suffix). -/
def lostMsg (s : Session) : String :=
  let base := longname s ++ " lost connection."
  match s.reason_for_quit with
  | some r => if r = "" then base else base ++ " (\"" ++ r ++ "\")"
  | none => base

/-- `UserSession.connectionLost`: broadcast the notice unless muted, then
remove the connection from the factory. -/
def connectionLost (w : World) (sid : Nat) : World :=
  match getSession w sid with
  | none => { w with crashed := true }
  | some s =>
    let w1 := if s.muted then w else broadcast_message w (lostMsg s) (some sid)
    remove_connection w1 sid

/-- Dispatch a stripped line according to the session state, mirroring the
`line_callbacks` dict (CHANGING_USERNAME has no entry: KeyError). -/
def dispatchLine (w : World) (sid : Nat) (st : SessState) (line : String) : World :=
  match st with
  | SessState.REGISTERED => command_or_msg w sid line
  | SessState.REQUESTING_NAME => got_username w sid line
  | SessState.REQUESTING_CURRENT_PASSWORD => got_current_password w sid line
  | SessState.REQUESTING_LOGIN_PASSWORD => got_login_password w sid line
  | SessState.REQUESTING_NEW_PASSWORD => got_new_password w sid line
  | SessState.REQUESTING_NEW_ACC_PASSWORD => got_new_acc_password w sid line
  | SessState.CHOOSING_KICK_OTHER_SESS => got_kick_choice w sid line
  | SessState.REQUESTING_MESSAGE_TEXT => got_message_text w sid line
  | SessState.CHANGING_USERNAME => { w with crashed := true }

/-- `UserSession.lineReceived`: decode (not modelled: we already hold text),
strip, and dispatch on the current state. -/
def lineReceived (w : World) (sid : Nat) (raw : String) : World :=
  match getSession w sid with
  | none => { w with crashed := true }
  | some s => dispatchLine w sid s.state (pyStrip raw)

/-- `UserSessionFactory.buildProtocol`: create the session object and add it
to the live-connection set. -/
def buildProtocol (w : World) (sid : Nat) (host : String) (port : Nat) : World :=
  { w with
    factory := { w.factory with connections := w.factory.connections ++ [sid] },
    sessions := dinsert sid (mkSession host port) w.sessions }

/-- `UserSession.connectionMade`: prompt for the name and enter
REQUESTING_NAME. -/
def connectionMade (w : World) (sid : Nat) : World :=
  let w1 := send w sid "What is your name? (Type below and press Return)"
  updSession w1 sid (fun t => { t with state := SessState.REQUESTING_NAME })

/-- The externally visible events the transport delivers to the server. -/
inductive Event where
  | connect (sid : Nat) (host : String) (port : Nat)
  | line (sid : Nat) (raw : String)
  | connLost (sid : Nat)

/-- One reactor step. -/
def step (w : World) (e : Event) : World :=
  match e with
  | Event.connect sid host port => connectionMade (buildProtocol w sid host port) sid
  | Event.line sid raw => lineReceived w sid raw
  | Event.connLost sid => connectionLost w sid

/-- Run a sequence of events. -/
def run (w : World) (es : List Event) : World :=
  es.foldl step w

/-- A registered session with the given identity. -/
def sessReg (host : String) (port : Nat) (nm : String) (op : Bool) : Session :=
  { mkSession host port with name := nm, is_op := op, state := SessState.REGISTERED }

/-- A small running server: alice and bob registered, session 3 still at the
name prompt. -/
def W0 : World :=
  { factory := { online_users := [("alice", 1), ("bob", 2)], connections := [1, 2, 3],
                 users := [("alice", { pword := "pa", is_op := false }),
                           ("bob", { pword := "pb", is_op := true })] },
    sessions := [(1, sessReg "h1" 1001 "alice" false),
                 (2, sessReg "h2" 1002 "bob" true),
                 (3, mkSession "h3" 1003)],
    outbox := [], fileStore := none,
    op_cmds := ["/kick", "/op", "/deop"], crashed := false }

/-- A server where session 1 never registered and bob is registered. -/
def W5 : World :=
  { factory := { online_users := [("bob", 2)], connections := [1, 2],
                 users := [("bob", { pword := "pb", is_op := false })] },
    sessions := [(1, mkSession "h1" 1001), (2, sessReg "h2" 1002 "bob" false)],
    outbox := [], fileStore := none,
    op_cmds := ["/kick", "/op", "/deop"], crashed := false }

/-- A server in which session 1 has already been removed from the live set. -/
def W7 : World :=
  { factory := { online_users := [], connections := [],
                 users := [("alice", { pword := "pa", is_op := false })] },
    sessions := [(1, sessReg "h1" 1001 "alice" false)],
    outbox := [], fileStore := none,
    op_cmds := ["/kick", "/op", "/deop"], crashed := false }

/-- A session of bob awaiting a private-message body addressed to alice. -/
def sessPendingMsg : Session :=
  { mkSession "h2" 1002 with name := "bob", state := SessState.REQUESTING_MESSAGE_TEXT, msg_recipient := some "alice" }

/-- A session that is choosing a password for the new account `carol`. -/
def sessNewAcc : Session :=
  { mkSession "h1" 1001 with state := SessState.REQUESTING_NEW_ACC_PASSWORD, requested_uname := some "carol" }

/-- A server where session 2 is mid `/msg alice` (awaiting the body). -/
def WM : World :=
  { factory := { online_users := [("alice", 1)], connections := [1, 2],
                 users := [("alice", { pword := "pa", is_op := false }),
                           ("bob", { pword := "pb", is_op := false })] },
    sessions := [(1, sessReg "h1" 1001 "alice" false), (2, sessPendingMsg)],
    outbox := [], fileStore := none,
    op_cmds := ["/kick", "/op", "/deop"], crashed := false }

/-- A server where session 1 is choosing a password for the new account
`carol`. -/
def WN : World :=
  { factory := { online_users := [], connections := [1],
                 users := [("admin", { pword := "open_sesame", is_op := true })] },
    sessions := [(1, sessNewAcc)],
    outbox := [], fileStore := none,
    op_cmds := ["/kick", "/op", "/deop"], crashed := false }

/-- The freshly started server (only the bootstrap admin account exists). -/
def W1 : World :=
  { factory := { online_users := [], connections := [],
                 users := [("admin", { pword := "open_sesame", is_op := true })] },
    sessions := [], outbox := [], fileStore := none,
    op_cmds := ["/kick", "/op", "/deop"], crashed := false }

/-- Session 1 registers the new account alice, then session 2 claims the same
name, confirms the kick, and logs in; finally the transport reports the
kicked incumbent's connection as lost. -/
def kickTrace : List Event :=
  [Event.connect 1 "h1" 1001,
   Event.line 1 "alice",
   Event.line 1 "pw1",
   Event.connect 2 "h2" 1002,
   Event.line 2 "alice",
   Event.line 2 "Y",
   Event.line 2 "pw1",
   Event.connLost 1]

@[simp] theorem send_factory (w : World) (c : Nat) (m : String) :
    (send w c m).factory = w.factory := rfl

@[simp] theorem send_sessions (w : World) (c : Nat) (m : String) :
    (send w c m).sessions = w.sessions := rfl

@[simp] theorem send_crashed (w : World) (c : Nat) (m : String) :
    (send w c m).crashed = w.crashed := rfl

@[simp] theorem send_fileStore (w : World) (c : Nat) (m : String) :
    (send w c m).fileStore = w.fileStore := rfl

@[simp] theorem send_outbox (w : World) (c : Nat) (m : String) :
    (send w c m).outbox = w.outbox ++ [(c, m)] := rfl

@[simp] theorem updSession_factory (w : World) (k : Nat) (f : Session → Session) :
    (updSession w k f).factory = w.factory := rfl

@[simp] theorem updSession_outbox (w : World) (k : Nat) (f : Session → Session) :
    (updSession w k f).outbox = w.outbox := rfl

@[simp] theorem updSession_crashed (w : World) (k : Nat) (f : Session → Session) :
    (updSession w k f).crashed = w.crashed := rfl

@[simp] theorem updSession_fileStore (w : World) (k : Nat) (f : Session → Session) :
    (updSession w k f).fileStore = w.fileStore := rfl

@[simp] theorem getSession_send (w : World) (c : Nat) (m : String) (x : Nat) :
    getSession (send w c m) x = getSession w x := rfl

theorem dlookup_updAt_self [DecidableEq κ] (k : κ) (f : α → α) (l : List (κ × α)) :
    dlookup k (updAt k f l) = (dlookup k l).map f := by
  induction l with
  | nil => rfl
  | cons p rest ih =>
    by_cases h : p.1 = k
    · simp [updAt, dlookup, h]
    · simp [updAt, dlookup, h, ih]

@[simp] theorem getSession_updSession (w : World) (k : Nat) (f : Session → Session) :
    getSession (updSession w k f) k = (getSession w k).map f :=
  dlookup_updAt_self k f w.sessions

theorem dlookup_dinsert_self [DecidableEq κ] (k : κ) (v : α) (l : List (κ × α)) :
    dlookup k (dinsert k v l) = some v := by
  induction l with
  | nil => simp [dinsert, dlookup]
  | cons p rest ih =>
    by_cases h : p.1 = k
    · simp [dinsert, dlookup, h]
    · simp [dinsert, dlookup, h, ih]

theorem foldl_send_eq (w : World) (m : String) (exc : Option Nat) (l : List Nat) :
    ∀ (w0 : World),
      l.foldl (fun acc c => if bcastCond w exc c then send acc c m else acc) w0 =
        { w0 with outbox := w0.outbox ++ (l.filter (bcastCond w exc)).map (fun c => (c, m)) } := by
  induction l with
  | nil => intro w0; simp
  | cons a t ih =>
    intro w0
    rw [List.foldl_cons]
    by_cases h : bcastCond w exc a
    · rw [if_pos h, ih (send w0 a m), List.filter_cons_of_pos h]
      simp [send]
    · rw [if_neg h, ih w0, List.filter_cons_of_neg h]

/-- `broadcast_message` only appends to the outbox: one line per connected
session that is REGISTERED and not the excluded one. -/
theorem broadcast_message_eq (w : World) (m : String) (exc : Option Nat) :
    broadcast_message w m exc =
      { w with outbox := w.outbox ++
          ((w.factory.connections.filter (bcastCond w exc)).map (fun c => (c, m))) } :=
  foldl_send_eq w m exc w.factory.connections w

@[simp] theorem broadcast_factory (w : World) (m : String) (exc : Option Nat) :
    (broadcast_message w m exc).factory = w.factory := by rw [broadcast_message_eq]

@[simp] theorem broadcast_sessions (w : World) (m : String) (exc : Option Nat) :
    (broadcast_message w m exc).sessions = w.sessions := by rw [broadcast_message_eq]

@[simp] theorem broadcast_crashed (w : World) (m : String) (exc : Option Nat) :
    (broadcast_message w m exc).crashed = w.crashed := by rw [broadcast_message_eq]

@[simp] theorem broadcast_fileStore (w : World) (m : String) (exc : Option Nat) :
    (broadcast_message w m exc).fileStore = w.fileStore := by rw [broadcast_message_eq]

@[simp] theorem getSession_broadcast (w : World) (m : String) (exc : Option Nat) (x : Nat) :
    getSession (broadcast_message w m exc) x = getSession w x := by
  unfold getSession; rw [broadcast_sessions]

theorem remove_connection_outbox (w : World) (sid : Nat) :
    (remove_connection w sid).outbox = w.outbox := by
  unfold remove_connection
  by_cases h : sid ∈ w.factory.connections
  · simp only [h, if_pos]
    cases getSession w sid <;> rfl
  · simp [h]

theorem welcome_factory (w : World) (sid : Nat) (s : Session)
    (h : getSession w sid = some s) : (welcome w sid).factory = w.factory := by
  unfold welcome
  rw [h]
  by_cases hm : s.muted <;> simp [hm]

theorem welcome_sessions (w : World) (sid : Nat) (s : Session)
    (h : getSession w sid = some s) : (welcome w sid).sessions = w.sessions := by
  unfold welcome
  rw [h]
  by_cases hm : s.muted <;> simp [hm]

theorem welcome_crashed (w : World) (sid : Nat) (s : Session)
    (h : getSession w sid = some s) : (welcome w sid).crashed = w.crashed := by
  unfold welcome
  rw [h]
  by_cases hm : s.muted <;> simp [hm]

/-- Claim C3: for every credential mapping, `save_users` followed by
`load_users` returns a mapping equal to the one saved (round-trip law). -/
theorem save_load_roundtrip (m : List (String × UserData)) (d : String) :
    load_users (save_users m) d = m := by
  simp only [save_users, load_users, pickleDecode, pickleEncode, List.map_map]
  exact List.map_id m

/-- Claim C8: kicking a name that is not in `online_users` sends the failure
notice to the requester only; the factory, the sessions, the file store and
the crash flag are all left unchanged (the result differs from the input
world only by the one appended outbox line). -/
theorem kick_offline_no_mutation (w : World) (nm : String) (r : Nat)
    (h : dlookup nm w.factory.online_users = none) :
    kick_by_name w nm (some r) =
      { w with outbox := w.outbox ++ [(r, "! That user isn\x27t online right now.")] } := by
  simp [kick_by_name, h, send]

/-- Witness for Claim C8: kicking the offline name `zed` in the concrete
world `W0`. -/
theorem kick_offline_no_mutation_check :
    kick_by_name W0 "zed" (some 1) =
      { W0 with outbox := W0.outbox ++ [(1, "! That user isn\x27t online right now.")] } :=
  kick_offline_no_mutation W0 "zed" 1 rfl

/-- Claim C7 counterexample: `remove_connection` on a session that is already
absent from the live set is not a no-op — `connections.remove` raises
KeyError (the crashed flag), so the removal is not idempotent. -/
theorem remove_connection_not_idempotent :
    W7.crashed = false ∧ (remove_connection W7 1).crashed = true := by decide

/-- Claim C7 amended: for a session in the live set, `remove_connection`
removes it from the live set and deletes the `online_users` entry stored
under the session's current name whenever such an entry exists — regardless
of which session that entry maps to; for a session not in the live set the
call faults (KeyError) instead of being a no-op. -/
theorem remove_connection_behavior (w : World) (sid : Nat) (s : Session)
    (h : getSession w sid = some s) :
    (sid ∈ w.factory.connections →
      remove_connection w sid =
        { w with factory := { w.factory with
            connections := w.factory.connections.erase sid,
            online_users := derase s.name w.factory.online_users } }) ∧
    (sid ∉ w.factory.connections →
      remove_connection w sid = { w with crashed := true }) := by
  constructor
  · intro hin
    simp [remove_connection, hin, h]
  · intro hout
    simp [remove_connection, hout]

/-- Witness for Claim C7 (amended): removing live session 1 of `W0`. -/
theorem remove_connection_behavior_check :
    (1 ∈ W0.factory.connections →
      remove_connection W0 1 =
        { W0 with factory := { W0.factory with
            connections := W0.factory.connections.erase 1,
            online_users := derase (sessReg "h1" 1001 "alice" false).name W0.factory.online_users } }) ∧
    (1 ∉ W0.factory.connections →
      remove_connection W0 1 = { W0 with crashed := true }) :=
  remove_connection_behavior W0 1 (sessReg "h1" 1001 "alice" false) rfl

/-- Claim C5 counterexample: session 1 of `W5` never reached REGISTERED (it
is still at the name prompt) and is not muted; when its transport closes,
the lost-connection notice IS broadcast — the registered session 2 receives
`"Anonymous(h1:1001) lost connection."` — contradicting the claim that no
notice is broadcast for a session that never reached REGISTERED. -/
theorem lost_notice_unregistered_counterex :
    (getSession W5 1).map Session.state = some SessState.REQUESTING_NAME ∧
    (getSession W5 1).map Session.muted = some false ∧
    (connectionLost W5 1).outbox = [(2, "Anonymous(h1:1001) lost connection.")] := by
  decide

/-- Claim C5 amended: on transport close the lost-connection notice
(optionally suffixed with the quoted quit reason) is broadcast iff the
closing session is not muted — the closing session's own state is not
consulted; delivery reaches exactly the other currently REGISTERED
connections. -/
theorem lost_notice_iff_unmuted (w : World) (sid : Nat) (s : Session)
    (h : getSession w sid = some s) :
    (connectionLost w sid).outbox =
      if s.muted then w.outbox
      else w.outbox ++ ((w.factory.connections.filter (bcastCond w (some sid))).map
        (fun c => (c, lostMsg s))) := by
  unfold connectionLost
  rw [h]
  by_cases hm : s.muted
  · simp [hm, remove_connection_outbox]
  · simp [hm, remove_connection_outbox, broadcast_message_eq]

/-- Witness for Claim C5 (amended): the unmuted, unregistered session 1 of
`W5`. -/
theorem lost_notice_iff_unmuted_check :
    (connectionLost W5 1).outbox =
      if (mkSession "h1" 1001).muted then W5.outbox
      else W5.outbox ++ ((W5.factory.connections.filter (bcastCond W5 (some 1))).map
        (fun c => (c, lostMsg (mkSession "h1" 1001)))) :=
  lost_notice_iff_unmuted W5 1 (mkSession "h1" 1001) rfl

/-- Claim C4 (code bug): kicking the online name alice mutes the target
session and closes its connection, but no kick notice is ever broadcast:
the outbox is unchanged, because `UserSessionFactory.kick` builds the notice
string into a local variable and never sends it. -/
theorem kick_notice_never_sent :
    (kick_by_name W0 "alice" (some 2)).outbox = W0.outbox ∧
    (getSession (kick_by_name W0 "alice" (some 2)) 1).map Session.muted = some true ∧
    (getSession (kick_by_name W0 "alice" (some 2)) 1).map Session.closing = some true ∧
    (kick_by_name W0 "alice" (some 2)).crashed = false := by
  decide

/-- Claim C6 (code bug): an invalid username in REQUESTING_NAME produces
exactly one reply and changes nothing else, but the reply is the
concatenation of two adjacent Python string literals with no space between
the sentences — `"Please enter a valid username.(Type below and press
Return)"` — and the literal with the space required by the claim is never
sent. -/
theorem invalid_username_literal_bug :
    lineReceived W0 3 "bad name!" =
      { W0 with outbox := W0.outbox ++
          [(3, "Please enter a valid username.(Type below and press Return)")] } ∧
    ((lineReceived W0 3 "bad name!").outbox.map Prod.snd).contains
      "Please enter a valid username. (Type below and press Return)" = false := by
  decide

theorem count_map_pair (l : List Nat) (c : Nat) (m : String) :
    (l.map (fun x => (x, m))).count (c, m) = l.count c := by
  induction l with
  | nil => rfl
  | cons a t ih =>
    simp only [List.map_cons, List.count_cons, ih]
    by_cases h : c = a
    · simp [h]
    · simp [h, Prod.ext_iff]

/-- Claim C2: a broadcast appends exactly one copy of the message for every
live connection that is REGISTERED and distinct from the excluded session,
and no copy at all for the excluded session or for any non-REGISTERED
connection. -/
theorem broadcast_delivery (w : World) (m : String) (exc : Option Nat) (c : Nat)
    (hnd : w.factory.connections.Nodup) :
    ((broadcast_message w m exc).outbox.drop w.outbox.length).count (c, m) =
      if c ∈ w.factory.connections ∧ some c ≠ exc ∧ isRegisteredIn w c = true
      then 1 else 0 := by
  rw [broadcast_message_eq]
  simp only [List.drop_left]
  rw [count_map_pair]
  by_cases hc : c ∈ w.factory.connections ∧ some c ≠ exc ∧ isRegisteredIn w c = true
  · have hp : bcastCond w exc c = true := by
      simp [bcastCond, hc.2.1, hc.2.2]
    have hmemf : c ∈ w.factory.connections.filter (bcastCond w exc) :=
      List.mem_filter.mpr ⟨hc.1, hp⟩
    rw [if_pos hc]
    exact List.count_eq_one_of_mem (hnd.filter _) hmemf
  · rw [if_neg hc]
    apply List.count_eq_zero_of_not_mem
    intro hmemf
    rcases List.mem_filter.mp hmemf with ⟨hmem, hp⟩
    simp only [bcastCond, Bool.and_eq_true, decide_eq_true_eq] at hp
    exact hc ⟨hmem, hp.1, hp.2⟩

/-- Witness for Claim C2: broadcasting `"hi"` in `W0` excluding session 1;
the registered session 2 receives the message exactly once. -/
theorem broadcast_delivery_check :
    ((broadcast_message W0 "hi" (some 1)).outbox.drop W0.outbox.length).count (2, "hi") =
      if 2 ∈ W0.factory.connections ∧ some 2 ≠ some 1 ∧ isRegisteredIn W0 2 = true
      then 1 else 0 :=
  broadcast_delivery W0 "hi" (some 1) 2 (by decide)

/-- Claim C9: a line received in REQUESTING_MESSAGE_TEXT is delivered as a
private message and the sender returns to REGISTERED regardless of the
outcome, without raising; an online recipient receives the formatted private
line and the sender the acknowledgment; for an offline recipient only the
sender is notified. -/
theorem private_message_delivery (w : World) (sid : Nat) (s : Session)
    (recip : String) (raw : String)
    (h : getSession w sid = some s)
    (hst : s.state = SessState.REQUESTING_MESSAGE_TEXT)
    (hr : s.msg_recipient = some recip) :
    (getSession (lineReceived w sid raw) sid).map Session.state = some SessState.REGISTERED ∧
    (lineReceived w sid raw).crashed = w.crashed ∧
    (∀ rid, dlookup recip w.factory.online_users = some rid →
      (lineReceived w sid raw).outbox =
        w.outbox ++ [(rid, "<msg: " ++ s.name ++ "> " ++ pyStrip raw),
                     (sid, "! Message sent")]) ∧
    (dlookup recip w.factory.online_users = none →
      (lineReceived w sid raw).outbox =
        w.outbox ++ [(sid, "! That user isn\x27t online right now")]) := by
  have hlr : lineReceived w sid raw = message w sid recip (pyStrip raw) := by
    simp [lineReceived, h, hst, dispatchLine, got_message_text, hr]
  rw [hlr]
  cases hd : dlookup recip w.factory.online_users with
  | none =>
    refine ⟨?_, ?_, fun rid hrid => absurd hrid (by simp), fun _ => ?_⟩
    · simp [message, h, hd]
    · simp [message, h, hd]
    · simp [message, h, hd, send]
  | some rid0 =>
    refine ⟨?_, ?_, fun rid hrid => ?_, fun hnone => absurd hnone (by simp)⟩
    · simp [message, h, hd]
    · simp [message, h, hd]
    · have hre : rid = rid0 := by
        injection hrid with he
        exact he.symm
      subst hre
      simp [message, h, hd, send]

/-- Witness for Claim C9: bob (session 2 of `WM`) sends the pending private
message `" hi "` to the online alice (session 1). -/
theorem private_message_delivery_check :
    (lineReceived WM 2 " hi ").outbox =
      WM.outbox ++ [(1, "<msg: " ++ sessPendingMsg.name ++ "> " ++ pyStrip " hi "),
                    (2, "! Message sent")] :=
  (private_message_delivery WM 2 sessPendingMsg "alice" " hi " rfl rfl rfl).2.2.1 1 rfl

theorem got_new_acc_password_spec (w : World) (sid : Nat) (s : Session)
    (u : String) (pw : String)
    (h : getSession w sid = some s) (hu : s.requested_uname = some u) :
    dlookup u (got_new_acc_password w sid pw).factory.users =
      some { pword := pw, is_op := false } ∧
    (getSession (got_new_acc_password w sid pw) sid).map Session.state =
      some SessState.REGISTERED ∧
    (got_new_acc_password w sid pw).crashed = w.crashed := by
  have h' : dlookup sid w.sessions = some s := h
  by_cases hm : s.muted <;>
    refine ⟨?_, ?_, ?_⟩ <;>
      simp [got_new_acc_password, h, hu, getSession, updSession, send, welcome,
        broadcast_message_eq, dlookup_updAt_self, dlookup_dinsert_self, h', hm]

/-- Claim C10: every received line is stripped of leading and trailing
whitespace before state dispatch (in every state); consequently a
whitespace-only line received in REQUESTING_NEW_ACC_PASSWORD is accepted and
creates the account with the empty string as its secret, registering the
session. -/
theorem line_stripped_and_empty_secret (w : World) (sid : Nat) (s : Session)
    (u : String) (raw : String) (h : getSession w sid = some s) :
    lineReceived w sid raw = dispatchLine w sid s.state (pyStrip raw) ∧
    (s.state = SessState.REQUESTING_NEW_ACC_PASSWORD → s.requested_uname = some u →
      pyStrip raw = "" →
      dlookup u (lineReceived w sid raw).factory.users =
        some { pword := "", is_op := false } ∧
      (getSession (lineReceived w sid raw) sid).map Session.state =
        some SessState.REGISTERED) := by
  have h1 : lineReceived w sid raw = dispatchLine w sid s.state (pyStrip raw) := by
    simp [lineReceived, h]
  refine ⟨h1, fun hst hu hemp => ?_⟩
  rw [h1, hst]
  show dlookup u (got_new_acc_password w sid (pyStrip raw)).factory.users = _ ∧ _
  rw [hemp]
  exact ⟨(got_new_acc_password_spec w sid s u "" h hu).1,
         (got_new_acc_password_spec w sid s u "" h hu).2.1⟩

/-- Witness for Claim C10: a whitespace-only line sent while session 1 of
`WN` was choosing the password for the new account `carol`. -/
theorem line_stripped_and_empty_secret_check :
    dlookup "carol" (lineReceived WN 1 "   \t ").factory.users =
      some { pword := "", is_op := false } ∧
    (getSession (lineReceived WN 1 "   \t ") 1).map Session.state =
      some SessState.REGISTERED :=
  (line_stripped_and_empty_secret WN 1 sessNewAcc "carol" "   \t " rfl).2 rfl rfl rfl

/-- Claim C1 (code bug): a duplicate login does route through
CHOOSING_KICK_OTHER_SESS (session 2 is in that state after claiming the
online name), but the incumbent's teardown DOES remove the new holder's
entry: after the kicked session's deferred connectionLost fires,
`online_users` no longer contains "alice" even though session 2 is live,
REGISTERED and named alice — the registry invariant is broken. -/
theorem duplicate_login_kick_removes_new_holder :
    (getSession (run W1 (kickTrace.take 5)) 2).map Session.state =
      some SessState.CHOOSING_KICK_OTHER_SESS ∧
    dlookup "alice" (run W1 kickTrace).factory.online_users = none ∧
    (getSession (run W1 kickTrace) 2).map Session.state = some SessState.REGISTERED ∧
    (getSession (run W1 kickTrace) 2).map Session.name = some "alice" ∧
    2 ∈ (run W1 kickTrace).factory.connections ∧
    (run W1 kickTrace).crashed = false := by
  decide
